import Mathlib

/-!
Verification of the issue-triage and remediation-advisor subsystem of
propvoice_mvp: the urgency classifier `analyze_urgency`
(app/services/summary.py, lines 154-183) and the tip advisor
`get_troubleshooting_tips` plus its SMS formatter
(app/services/troubleshooting.py).

The Python functions work on strings; we model Python string primitives
character-wise, which is faithful for the ASCII keywords and catalog keys
this code matches against.
-/

namespace PropVoice

/-- Python `s.lower()`, modelled as a character-wise lowercase map
(faithful on ASCII, which covers every keyword and catalog key). -/
def pyLower (s : String) : String := ⟨s.data.map Char.toLower⟩

/-- Python substring test `needle in haystack`. -/
def pyContains (haystack needle : String) : Bool :=
  decide (needle.data <:+: haystack.data)

/-- Python `s.replace(" ", "_")`: the pattern is a single character, so the
replacement is a character-wise map. -/
def pyReplaceSpace (s : String) : String :=
  ⟨s.data.map (fun c => if c = ' ' then '_' else c)⟩

/-- summary.py lines 160-165: the ordered emergency keyword list. -/
def emergency_keywords : List String :=
  ["flood", "flooding", "water leak", "burst pipe", "gas leak", "gas smell",
   "no heat", "no hot water", "no electricity", "power out", "fire",
   "smoke", "break in", "broken door", "broken window", "locked out",
   "sewage", "toilet overflow", "electrical spark", "sparking"]

/-- summary.py lines 167-171: the ordered urgent keyword list. -/
def urgent_keywords : List String :=
  ["no ac", "no air conditioning", "refrigerator not working", "fridge broken",
   "stove not working", "oven broken", "dishwasher leak", "washing machine leak",
   "toilet running", "sink clogged", "drain clogged"]

/-- summary.py lines 154-183 (`analyze_urgency`): lowercase the description,
return "emergency" on the first emergency-keyword substring match, else
"urgent" on the first urgent-keyword match, else "routine".  The Python
first-match `for` loops are modelled with `List.find?`. -/
def analyze_urgency (description : String) : String :=
  let description_lower := pyLower description
  match emergency_keywords.find? (fun k => pyContains description_lower k) with
  | some _ => "emergency"
  | none =>
    match urgent_keywords.find? (fun k => pyContains description_lower k) with
    | some _ => "urgent"
    | none => "routine"

/-- troubleshooting.py lines 13-17: plumbing "general" tips. -/
def plumbing_general_tips : List String :=
  ["Check if the water supply valve is fully open",
   "Look for any visible leaks under sinks or behind toilets",
   "Try turning the water off and on again at the main valve"]

/-- troubleshooting.py lines 18-24: plumbing "toilet" tips. -/
def plumbing_toilet_tips : List String :=
  ["Check if the water supply valve behind the toilet is fully open",
   "Try flushing - if no water flows, ensure the valve is open",
   "If overflowing, turn off the water supply valve immediately",
   "Check if the flapper inside the tank is properly sealing",
   "For clogs, try using a plunger with firm, steady pressure"]

/-- troubleshooting.py lines 25-30: plumbing "sink" tips. -/
def plumbing_sink_tips : List String :=
  ["Check if the faucet aerator is clogged (unscrew and clean)",
   "For slow drains, try hot water and dish soap first",
   "Check under the sink for visible leaks or loose connections",
   "Ensure the P-trap isn\x27t clogged (place bucket underneath before removing)"]

/-- troubleshooting.py lines 31-36: plumbing "shower" tips. -/
def plumbing_shower_tips : List String :=
  ["Check if the showerhead is clogged (soak in vinegar for 30 minutes)",
   "Ensure the water supply valves are fully open",
   "For low pressure, clean the showerhead filter",
   "Check if other fixtures have water to isolate the issue"]

/-- troubleshooting.py lines 39-44: electrical "general" tips. -/
def electrical_general_tips : List String :=
  ["Check if the circuit breaker has tripped and reset if needed",
   "Try plugging a different device into the same outlet to test",
   "Do NOT attempt to repair electrical issues yourself",
   "If you smell burning or see sparks, evacuate and call 911"]

/-- troubleshooting.py lines 45-50: electrical "outlet" tips. -/
def electrical_outlet_tips : List String :=
  ["Check the circuit breaker panel for tripped breakers",
   "Test with a different device to rule out device issues",
   "Look for GFCI outlets nearby and press the RESET button",
   "Do not use the outlet if it feels hot or looks damaged"]

/-- troubleshooting.py lines 51-56: electrical "lights" tips. -/
def electrical_lights_tips : List String :=
  ["Try replacing the light bulb first",
   "Check if other lights in the room work",
   "Ensure the light switch is functioning properly",
   "Check the circuit breaker for that area"]

/-- troubleshooting.py lines 59-64: hvac "general" tips. -/
def hvac_general_tips : List String :=
  ["Check if the thermostat is set to the correct mode (heat/cool)",
   "Ensure the thermostat batteries are working",
   "Check if the air filter needs replacing (do monthly)",
   "Make sure all vents are open and unobstructed"]

/-- troubleshooting.py lines 65-70: hvac "heating" tips. -/
def hvac_heating_tips : List String :=
  ["Set thermostat to heat mode and 5¬∞F above current temperature",
   "Check if the pilot light is on (if gas furnace)",
   "Ensure vents and radiators aren\x27t blocked by furniture",
   "Replace air filter if it\x27s dirty or clogged"]

/-- troubleshooting.py lines 71-76: hvac "cooling" tips. -/
def hvac_cooling_tips : List String :=
  ["Set thermostat to cool mode and 5¬∞F below current temperature",
   "Check if the outdoor unit is running",
   "Clean or replace the air filter",
   "Ensure outdoor unit isn\x27t blocked by debris or vegetation"]

/-- troubleshooting.py lines 79-84: appliance "general" tips. -/
def appliance_general_tips : List String :=
  ["Check if the appliance is properly plugged in",
   "Ensure the circuit breaker hasn\x27t tripped",
   "Consult the appliance manual for troubleshooting steps",
   "Check if there\x27s a reset button on the appliance"]

/-- troubleshooting.py lines 85-90: appliance "refrigerator" tips. -/
def appliance_refrigerator_tips : List String :=
  ["Ensure the temperature is set between 37-40¬∞F",
   "Check if the door seals properly and isn\x27t left open",
   "Clean the condenser coils (usually in back or bottom)",
   "Make sure vents inside aren\x27t blocked by food items"]

/-- troubleshooting.py lines 91-96: appliance "dishwasher" tips. -/
def appliance_dishwasher_tips : List String :=
  ["Check if the door latches properly",
   "Ensure the water supply valve under the sink is open",
   "Clean the filter at the bottom of the dishwasher",
   "Make sure the spray arms can rotate freely"]

/-- troubleshooting.py lines 97-102: appliance "washer" tips. -/
def appliance_washer_tips : List String :=
  ["Check if the water supply valves are fully open",
   "Ensure the drain hose isn\x27t kinked or clogged",
   "Clean the lint filter if applicable",
   "Make sure the load is balanced"]

/-- troubleshooting.py lines 104-111: door_lock "general" tips. -/
def door_lock_general_tips : List String :=
  ["Try using WD-40 or graphite lubricant on the lock mechanism",
   "Check if the key is worn or damaged",
   "Ensure the door is properly aligned with the frame",
   "Try the spare key if available"]

/-- troubleshooting.py lines 112-119: window "general" tips. -/
def window_general_tips : List String :=
  ["Check if the window lock is fully disengaged",
   "Clean the window tracks and remove debris",
   "Lubricate the window tracks with silicone spray",
   "Check for visible obstructions or damage"]

/-- troubleshooting.py lines 11-120: the static TROUBLESHOOTING_TIPS catalog.
Python 3.7+ dicts preserve insertion order, so both levels are modelled as
ordered association lists in the source order. -/
def TROUBLESHOOTING_TIPS : List (String × List (String × List String)) :=
  [("plumbing",
    [("general", plumbing_general_tips),
     ("toilet", plumbing_toilet_tips),
     ("sink", plumbing_sink_tips),
     ("shower", plumbing_shower_tips)]),
   ("electrical",
    [("general", electrical_general_tips),
     ("outlet", electrical_outlet_tips),
     ("lights", electrical_lights_tips)]),
   ("hvac",
    [("general", hvac_general_tips),
     ("heating", hvac_heating_tips),
     ("cooling", hvac_cooling_tips)]),
   ("appliance",
    [("general", appliance_general_tips),
     ("refrigerator", appliance_refrigerator_tips),
     ("dishwasher", appliance_dishwasher_tips),
     ("washer", appliance_washer_tips)]),
   ("door_lock",
    [("general", door_lock_general_tips)]),
   ("window",
    [("general", window_general_tips)])]

/-- The dictionary returned by `get_troubleshooting_tips`.  The Python branches
return dicts with different key sets; a key that a branch omits is modelled as
`none` (consumers read the dict with `.get`, which treats a missing key and a
None value alike). -/
structure TriageResult where
  tips : List String
  can_self_resolve : Bool
  estimated_resolution : String
  category : Option String
  subcategory : Option String
  safety_warning : Option String
  follow_up_message : Option String
deriving Repr, DecidableEq

/-- troubleshooting.py lines 144-154: the fixed result of the emergency
short-circuit branch. -/
def emergency_result : TriageResult :=
  { tips :=
      ["This is an emergency situation - professional help is on the way",
       "If there\x27s immediate danger, evacuate and call 911",
       "Do not attempt to fix this yourself",
       "Our maintenance team has been notified and will respond immediately"]
    can_self_resolve := false
    estimated_resolution := "Emergency response dispatched"
    category := none
    subcategory := none
    safety_warning := some "Please stay safe and do not attempt repairs"
    follow_up_message := none }

/-- troubleshooting.py lines 183-188: the global fallback tip list used when
the category scan produced no tips. -/
def global_fallback_tips : List String :=
  ["Please document the issue with photos if possible",
   "Note when the problem started and if it\x27s getting worse",
   "Check if the issue affects other areas of your unit",
   "Our maintenance team will assess and resolve the issue"]

/-- troubleshooting.py lines 206-209: the fixed follow-up message. -/
def follow_up_text : String :=
  "Try these steps and let us know if the issue persists. Our maintenance team will follow up within the estimated timeframe."

/-- troubleshooting.py lines 214-219: the result of the `except` handler. -/
def error_fallback_result : TriageResult :=
  { tips := ["Our maintenance team will assess and resolve your issue"]
    can_self_resolve := false
    estimated_resolution := "1-3 business days"
    category := some "general"
    subcategory := none
    safety_warning := none
    follow_up_message := none }

/-- troubleshooting.py lines 194-198: the resolution-time lookup
`{...}.get(urgency, "1-3 business days")`. -/
def resolution_time_table (urgency : String) : String :=
  if urgency = "emergency" then "0-2 hours"
  else if urgency = "urgent" then "4-24 hours"
  else if urgency = "routine" then "1-3 business days"
  else "1-3 business days"

/-- troubleshooting.py lines 162-164: the category scan
`for cat, subcats in TROUBLESHOOTING_TIPS.items(): if cat in issue_type or
issue_type in cat`, returning the first match. -/
def resolve_category (catalog : List (String × List (String × List String)))
    (issue_type : String) : Option (String × List (String × List String)) :=
  catalog.find? (fun p => pyContains issue_type p.1 || pyContains p.1 issue_type)

/-- troubleshooting.py lines 166-173: the subcategory scan, run only when
`description` is truthy (non-None and non-empty); selects the first non-general
subcategory key occurring in the lowercased description or in the normalized
issue type. -/
def resolve_subcategory (subcats : List (String × List String))
    (issue_type : String) (description : Option String) :
    Option (String × List String) :=
  match description with
  | none => none
  | some d =>
    if d = "" then none
    else
      let desc_lower := pyLower d
      subcats.find? (fun p =>
        decide (p.1 ≠ "general")
          && (pyContains desc_lower p.1 || pyContains issue_type p.1))

/-- troubleshooting.py lines 139-210: the body of `get_troubleshooting_tips`
inside the `try`, parameterized by the catalog global it reads. -/
def get_troubleshooting_tips_with
    (catalog : List (String × List (String × List String)))
    (issue_type : String) (description : Option String) (urgency : String) :
    TriageResult :=
  let it := pyReplaceSpace (pyLower issue_type)
  if urgency = "emergency" then emergency_result
  else
    let found := resolve_category catalog it
    let category : Option String := found.map Prod.fst
    let sub : Option (String × List String) :=
      match found with
      | some (_, subcats) => resolve_subcategory subcats it description
      | none => none
    let subcategory : Option String := sub.map Prod.fst
    let tips0 : List String :=
      match sub with
      | some (_, l) => l
      | none => []
    let tips1 : List String :=
      match found with
      | some (_, subcats) =>
        if tips0 = [] then
          match subcats.find? (fun p => p.1 = "general") with
          | some (_, g) => tips0 ++ g
          | none => tips0
        else tips0
      | none => tips0
    let tips : List String := if tips1 = [] then global_fallback_tips else tips1
    let can_self_resolve : Bool :=
      (urgency == "routine")
        && (match category with
            | some c => decide (c ∈ ["plumbing", "hvac", "appliance"])
            | none => false)
    { tips := tips.take 5
      can_self_resolve := can_self_resolve
      estimated_resolution :=
        "Professional maintenance: " ++ resolution_time_table urgency
      category := some (category.getD "general")
      subcategory := subcategory
      safety_warning := none
      follow_up_message := some follow_up_text }

/-- troubleshooting.py lines 123-219, with the global catalog threaded as a
parameter.  The arguments arrive from parsed JSON, so `issue_type` (declared
`str`) can in fact be None; the only statement in the `try` that raises for
such inputs is `issue_type.lower()` (AttributeError on None), which the
`except` handler (lines 212-219) converts to `error_fallback_result`. -/
def get_troubleshooting_tips_impl
    (catalog : List (String × List (String × List String)))
    (issue_type : Option String) (description : Option String)
    (urgency : String) : TriageResult :=
  match issue_type with
  | none => error_fallback_result
  | some it => get_troubleshooting_tips_with catalog it description urgency

/-- troubleshooting.py lines 139-210 as a fallible computation: `.error ()`
is the AttributeError raised by `issue_type.lower()` when issue_type is None;
for every other input the body runs to completion. -/
def get_troubleshooting_tips_try
    (issue_type : Option String) (description : Option String)
    (urgency : String) : Except Unit TriageResult :=
  match issue_type with
  | none => .error ()
  | some it =>
    .ok (get_troubleshooting_tips_with TROUBLESHOOTING_TIPS it description urgency)

/-- troubleshooting.py lines 123-219: `get_troubleshooting_tips` as called in
production, reading the module-level TROUBLESHOOTING_TIPS catalog. -/
def get_troubleshooting_tips
    (issue_type : Option String) (description : Option String)
    (urgency : String) : TriageResult :=
  match get_troubleshooting_tips_try issue_type description urgency with
  | .ok r => r
  | .error _ => error_fallback_result

/-- The advisor with its only shared state (the module-level catalog) threaded
explicitly: the second component is what the global holds after the call.  The
function body never assigns the global, so the state is returned unchanged. -/
def get_troubleshooting_tips_state
    (issue_type : Option String) (description : Option String)
    (urgency : String)
    (catalog : List (String × List (String × List String))) :
    TriageResult × List (String × List (String × List String)) :=
  (get_troubleshooting_tips_impl catalog issue_type description urgency, catalog)

/-- troubleshooting.py line 253: `enumerate(tips[:3], 1)` rendered as the
numbered SMS lines `f"{i}. {tip}\n"`. -/
def sms_tip_lines (tips : List String) : List String :=
  (List.enumFrom 1 (tips.take 3)).map (fun p => toString p.1 ++ ". " ++ p.2 ++ "\n")

/-- troubleshooting.py lines 244-258: `format_tips_for_sms`. -/
def format_tips_for_sms (tips_data : TriageResult) : String :=
  if tips_data.tips = [] then
    "Maintenance request received. Our team will contact you soon."
  else
    "Troubleshooting tips:\n" ++ String.join (sms_tip_lines tips_data.tips)
      ++ "\nETA: " ++ tips_data.estimated_resolution

theorem analyze_urgency_emergency_of_match (d : String)
    (h : ∃ k ∈ emergency_keywords, pyContains (pyLower d) k = true) :
    analyze_urgency d = "emergency" := by
  obtain ⟨k, hk, hp⟩ := h
  simp only [analyze_urgency]
  split
  · rfl
  · rename_i hfind
    rw [List.find?_eq_none] at hfind
    exact absurd hp (by simpa using hfind k hk)

theorem analyze_urgency_total (d : String) :
    analyze_urgency d = "emergency" ∨ analyze_urgency d = "urgent" ∨
      analyze_urgency d = "routine" := by
  simp only [analyze_urgency]
  split
  · exact Or.inl rfl
  · split
    · exact Or.inr (Or.inl rfl)
    · exact Or.inr (Or.inr rfl)

theorem analyze_urgency_routine_of_no_match (d : String)
    (h1 : ∀ k ∈ emergency_keywords, pyContains (pyLower d) k = false)
    (h2 : ∀ k ∈ urgent_keywords, pyContains (pyLower d) k = false) :
    analyze_urgency d = "routine" := by
  simp only [analyze_urgency]
  split
  · rename_i v hfind
    have := List.find?_some hfind
    have hmem := List.mem_of_find?_eq_some hfind
    rw [h1 v hmem] at this
    cases this
  · split
    · rename_i v hfind
      have := List.find?_some hfind
      have hmem := List.mem_of_find?_eq_some hfind
      rw [h2 v hmem] at this
      cases this
    · rfl

theorem pyContains_eq_false_of_whitespace (d k : String)
    (hw : ∀ c ∈ d.data, c = ' ' ∨ c = '\t' ∨ c = '\n' ∨ c = '\r')
    (hk : ∃ c ∈ k.data, ¬(c = ' ' ∨ c = '\t' ∨ c = '\n' ∨ c = '\r')) :
    pyContains (pyLower d) k = false := by
  obtain ⟨c, hc, hcw⟩ := hk
  simp only [pyContains, decide_eq_false_iff_not]
  intro hinf
  have hsub : c ∈ (pyLower d).data := hinf.sublist.subset hc
  have hmap : (pyLower d).data = d.data.map Char.toLower := rfl
  rw [hmap, List.mem_map] at hsub
  obtain ⟨a, ha, hac⟩ := hsub
  rcases hw a ha with h | h | h | h <;> subst h <;> subst hac <;>
    exact hcw (by decide)

theorem all_keywords_have_nonwhitespace :
    ∀ k ∈ emergency_keywords ++ urgent_keywords,
      ∃ c ∈ k.data, ¬(c = ' ' ∨ c = '\t' ∨ c = '\n' ∨ c = '\r') := by
  decide

/-- C4 -/
theorem claim_C4 (d : String)
    (h : ∃ k ∈ emergency_keywords, pyContains (pyLower d) k = true) :
    analyze_urgency d = "emergency" :=
  analyze_urgency_emergency_of_match d h

/-- C4 witness -/
theorem claim_C4_witness :
    (∃ k ∈ emergency_keywords,
        pyContains (pyLower "There is a GAS LEAK and the toilet running") k = true)
      ∧ (∃ k ∈ urgent_keywords,
        pyContains (pyLower "There is a GAS LEAK and the toilet running") k = true)
      ∧ analyze_urgency "There is a GAS LEAK and the toilet running" = "emergency" :=
  ⟨by decide, by decide, claim_C4 "There is a GAS LEAK and the toilet running" (by decide)⟩

/-- C7 -/
theorem claim_C7 :
    (∀ d, analyze_urgency d = "emergency" ∨ analyze_urgency d = "urgent" ∨
        analyze_urgency d = "routine")
  ∧ analyze_urgency "" = "routine"
  ∧ (∀ d, (∀ c ∈ d.data, c = ' ' ∨ c = '\t' ∨ c = '\n' ∨ c = '\r') →
        analyze_urgency d = "routine")
  ∧ (∀ d, (∀ k ∈ emergency_keywords, pyContains (pyLower d) k = false) →
        (∀ k ∈ urgent_keywords, pyContains (pyLower d) k = false) →
        analyze_urgency d = "routine") := by
  refine ⟨analyze_urgency_total, rfl, ?_, analyze_urgency_routine_of_no_match⟩
  intro d hw
  apply analyze_urgency_routine_of_no_match <;> intro k hk
  · exact pyContains_eq_false_of_whitespace d k hw
      (all_keywords_have_nonwhitespace k (List.mem_append_left _ hk))
  · exact pyContains_eq_false_of_whitespace d k hw
      (all_keywords_have_nonwhitespace k (List.mem_append_right _ hk))

/-- C7 witness -/
theorem claim_C7_witness :
    analyze_urgency " \t " = "routine" ∧ analyze_urgency "squeaky floor" = "routine" :=
  ⟨claim_C7.2.2.1 " \t " (by decide), claim_C7.2.2.2 "squeaky floor" (by decide) (by decide)⟩

/-- C1 counterexample -/
theorem claim_C1_counterexample :
    ¬ (plumbing_toilet_tips <+:
        (get_troubleshooting_tips (some "toilet") (some "it keeps running") "urgent").tips) := by
  decide

/-- C1 -/
theorem claim_C1 :
    get_troubleshooting_tips (some "toilet") (some "it keeps running") "urgent"
      = { tips := global_fallback_tips
          can_self_resolve := false
          estimated_resolution := "Professional maintenance: 4-24 hours"
          category := some "general"
          subcategory := none
          safety_warning := none
          follow_up_message := some follow_up_text } := by
  rfl

/-- C2 -/
theorem claim_C2 (issue_type : String) (description : Option String) :
    get_troubleshooting_tips (some issue_type) description "emergency"
      = emergency_result := by
  rfl

/-- C3 counterexample -/
theorem claim_C3_counterexample :
    get_troubleshooting_tips_try none (some "water leak") "routine" = Except.error ()
  ∧ (get_troubleshooting_tips none (some "water leak") "routine").tips
      ≠ global_fallback_tips
  ∧ (get_troubleshooting_tips none (some "water leak") "routine").estimated_resolution
      = "1-3 business days" :=
  ⟨rfl, by decide, rfl⟩

/-- C3 -/
theorem claim_C3 (description : Option String) (urgency : String) :
    get_troubleshooting_tips_try none description urgency = Except.error ()
  ∧ get_troubleshooting_tips none description urgency = error_fallback_result :=
  ⟨rfl, rfl⟩

/-- C5 -/
theorem claim_C5 (issue_type : String) (description : Option String) (urgency : String) :
    (get_troubleshooting_tips (some issue_type) description urgency).can_self_resolve = true
      ↔ urgency = "routine"
        ∧ (get_troubleshooting_tips (some issue_type) description urgency).category
            ∈ [some "plumbing", some "hvac", some "appliance"] := by
  by_cases hu : urgency = "emergency"
  · subst hu
    constructor
    · intro h
      have hf : (get_troubleshooting_tips (some issue_type) description "emergency").can_self_resolve
          = false := rfl
      rw [hf] at h
      cases h
    · rintro ⟨h1, -⟩
      exact absurd h1 (by decide)
  · have hg : get_troubleshooting_tips (some issue_type) description urgency
        = get_troubleshooting_tips_with TROUBLESHOOTING_TIPS issue_type description urgency := rfl
    rw [hg]
    unfold get_troubleshooting_tips_with
    rw [if_neg hu]
    cases hfound : resolve_category TROUBLESHOOTING_TIPS (pyReplaceSpace (pyLower issue_type)) with
    | none =>
      simp [hfound]
    | some cs =>
      obtain ⟨c, subcats⟩ := cs
      simp [hfound, List.mem_cons]

theorem advisor_tips_le_five (issue_type description : Option String) (urgency : String) :
    (get_troubleshooting_tips issue_type description urgency).tips.length ≤ 5 := by
  cases issue_type with
  | none =>
    have : get_troubleshooting_tips none description urgency = error_fallback_result := rfl
    rw [this]
    decide
  | some it =>
    by_cases hu : urgency = "emergency"
    · subst hu
      have : get_troubleshooting_tips (some it) description "emergency" = emergency_result := rfl
      rw [this]
      decide
    · have hg : get_troubleshooting_tips (some it) description urgency
          = get_troubleshooting_tips_with TROUBLESHOOTING_TIPS it description urgency := rfl
      rw [hg]
      unfold get_troubleshooting_tips_with
      rw [if_neg hu]
      simp only [List.length_take]
      omega

theorem sms_lines_le_three (tips : List String) :
    (sms_tip_lines tips).length ≤ 3 := by
  simp only [sms_tip_lines, List.length_map, List.enumFrom_length, List.length_take]
  omega

/-- C6 -/
theorem claim_C6 :
    (∀ (issue_type description : Option String) (urgency : String),
        (get_troubleshooting_tips issue_type description urgency).tips.length ≤ 5)
  ∧ (∀ tips_data : TriageResult, (sms_tip_lines tips_data.tips).length ≤ 3)
  ∧ (∀ tips_data : TriageResult, tips_data.tips = [] →
        format_tips_for_sms tips_data
          = "Maintenance request received. Our team will contact you soon.") := by
  refine ⟨advisor_tips_le_five, fun td => sms_lines_le_three td.tips, fun td h => ?_⟩
  rw [format_tips_for_sms, if_pos h]

/-- C6 witness -/
theorem claim_C6_witness :
    format_tips_for_sms
        { tips := [], can_self_resolve := false, estimated_resolution := "Soon",
          category := none, subcategory := none, safety_warning := none,
          follow_up_message := none }
      = "Maintenance request received. Our team will contact you soon." :=
  claim_C6.2.2
    { tips := [], can_self_resolve := false, estimated_resolution := "Soon",
      category := none, subcategory := none, safety_warning := none,
      follow_up_message := none } rfl

/-- C8 -/
theorem claim_C8 (issue_type description : Option String) (urgency : String)
    (catalog : List (String × List (String × List String))) :
    (get_troubleshooting_tips_state issue_type description urgency catalog).2 = catalog
  ∧ (get_troubleshooting_tips_state issue_type description urgency
        ((get_troubleshooting_tips_state issue_type description urgency catalog).2)).1
      = (get_troubleshooting_tips_state issue_type description urgency catalog).1
  ∧ ∀ d : String, analyze_urgency d = analyze_urgency d :=
  ⟨rfl, rfl, fun _ => rfl⟩

/-- C10 -/
theorem claim_C10 (issue_type : String) (description : Option String) (urgency : String)
    (h1 : urgency ≠ "emergency") (h2 : urgency ≠ "urgent") (h3 : urgency ≠ "routine") :
    (get_troubleshooting_tips (some issue_type) description urgency).estimated_resolution
        = "Professional maintenance: 1-3 business days"
  ∧ (get_troubleshooting_tips (some issue_type) description urgency).can_self_resolve
        = false := by
  have hg : get_troubleshooting_tips (some issue_type) description urgency
      = get_troubleshooting_tips_with TROUBLESHOOTING_TIPS issue_type description urgency := rfl
  rw [hg]
  unfold get_troubleshooting_tips_with
  rw [if_neg h1]
  constructor
  · simp [resolution_time_table, h1, h2, h3]
  · simp [h3]

/-- C10 witness -/
theorem claim_C10_witness :
    ("high" ≠ "emergency" ∧ "high" ≠ "urgent" ∧ "high" ≠ "routine")
  ∧ (get_troubleshooting_tips (some "plumbing") none "high").estimated_resolution
      = "Professional maintenance: 1-3 business days"
  ∧ (get_troubleshooting_tips (some "plumbing") none "high").can_self_resolve = false :=
  ⟨by decide,
   (claim_C10 "plumbing" none "high" (by decide) (by decide) (by decide)).1,
   (claim_C10 "plumbing" none "high" (by decide) (by decide) (by decide)).2⟩

theorem resolve_subcategory_inv {subcats : List (String × List String)}
    {it : String} {d : Option String} {x : String × List String}
    (h : resolve_subcategory subcats it d = some x) :
    x ∈ subcats ∧ x.1 ≠ "general" := by
  unfold resolve_subcategory at h
  split at h
  · cases h
  · split at h
    · cases h
    · refine ⟨List.mem_of_find?_eq_some h, ?_⟩
      have := List.find?_some h
      rw [Bool.and_eq_true, decide_eq_true_eq] at this
      exact this.1

/-- C9 counterexample -/
theorem claim_C9_counterexample :
    (get_troubleshooting_tips (some " ") none "routine").category = some "door_lock"
  ∧ (get_troubleshooting_tips (some " ") none "routine").category ≠ some "plumbing"
  ∧ (get_troubleshooting_tips (some "") (some "the sink is clogged") "routine").tips
      ≠ plumbing_general_tips :=
  ⟨rfl, by decide, by decide⟩

/-- C9 -/
theorem claim_C9 (description : Option String) (urgency : String)
    (hu : urgency ≠ "emergency") :
    (get_troubleshooting_tips (some "") description urgency).category = some "plumbing"
  ∧ ((∀ s, description = some s → ∀ sc ∈ ["toilet", "sink", "shower"],
        pyContains (pyLower s) sc = false) →
      (get_troubleshooting_tips (some "") description urgency).tips
        = plumbing_general_tips)
  ∧ (get_troubleshooting_tips (some "") description urgency).tips
      ≠ global_fallback_tips := by
  have hg : get_troubleshooting_tips (some "") description urgency
      = get_troubleshooting_tips_with TROUBLESHOOTING_TIPS "" description urgency := rfl
  have hfound : resolve_category TROUBLESHOOTING_TIPS (pyReplaceSpace (pyLower ""))
      = some ("plumbing",
          [("general", plumbing_general_tips), ("toilet", plumbing_toilet_tips),
           ("sink", plumbing_sink_tips), ("shower", plumbing_shower_tips)]) := rfl
  have hsubn : ∀ (h : ∀ s, description = some s → ∀ sc ∈ ["toilet", "sink", "shower"],
        pyContains (pyLower s) sc = false),
      resolve_subcategory
          [("general", plumbing_general_tips), ("toilet", plumbing_toilet_tips),
           ("sink", plumbing_sink_tips), ("shower", plumbing_shower_tips)]
          (pyReplaceSpace (pyLower "")) description = none := by
    intro h
    unfold resolve_subcategory
    split
    · rfl
    · rename_i s
      split
      · rfl
      · rename_i hs
        show List.find?
            (fun p => decide (p.1 ≠ "general")
              && (pyContains (pyLower s) p.1 || pyContains (pyReplaceSpace (pyLower "")) p.1))
            [("general", plumbing_general_tips), ("toilet", plumbing_toilet_tips),
             ("sink", plumbing_sink_tips), ("shower", plumbing_shower_tips)] = none
        rw [List.find?_eq_none]
        rintro ⟨name, l⟩ hmem
        simp only [List.mem_cons, List.not_mem_nil, or_false, Prod.mk.injEq] at hmem
        rcases hmem with ⟨rfl, rfl⟩ | ⟨rfl, rfl⟩ | ⟨rfl, rfl⟩ | ⟨rfl, rfl⟩
        · simp
        · simp [h s rfl "toilet" (by decide),
            show pyContains (pyReplaceSpace (pyLower "")) "toilet" = false from rfl]
        · simp [h s rfl "sink" (by decide),
            show pyContains (pyReplaceSpace (pyLower "")) "sink" = false from rfl]
        · simp [h s rfl "shower" (by decide),
            show pyContains (pyReplaceSpace (pyLower "")) "shower" = false from rfl]
  refine ⟨?_, ?_, ?_⟩
  · rw [hg]
    unfold get_troubleshooting_tips_with
    rw [if_neg hu]
    simp [hfound]
  · intro h
    rw [hg]
    unfold get_troubleshooting_tips_with
    rw [if_neg hu]
    simp [hfound, hsubn h]
    decide
  · rw [hg]
    unfold get_troubleshooting_tips_with
    rw [if_neg hu]
    cases hsub : resolve_subcategory
        [("general", plumbing_general_tips), ("toilet", plumbing_toilet_tips),
         ("sink", plumbing_sink_tips), ("shower", plumbing_shower_tips)]
        (pyReplaceSpace (pyLower "")) description with
    | none =>
      simp [hfound, hsub]
      decide
    | some x =>
      obtain ⟨hmem, hne⟩ := resolve_subcategory_inv hsub
      obtain ⟨name, l⟩ := x
      simp only [List.mem_cons, List.not_mem_nil, or_false, Prod.mk.injEq] at hmem
      rcases hmem with ⟨rfl, rfl⟩ | ⟨rfl, rfl⟩ | ⟨rfl, rfl⟩ | ⟨rfl, rfl⟩
      · exact absurd rfl hne
      · simp [hfound, hsub]
        decide
      · simp [hfound, hsub]
        decide
      · simp [hfound, hsub]
        decide

/-- C9 witness -/
theorem claim_C9_witness :
    ("routine" : String) ≠ "emergency"
  ∧ (get_troubleshooting_tips (some "") none "routine").category = some "plumbing"
  ∧ (get_troubleshooting_tips (some "") none "routine").tips = plumbing_general_tips :=
  ⟨by decide, (claim_C9 none "routine" (by decide)).1,
   (claim_C9 none "routine" (by decide)).2.1 (by intro s hs; simp at hs)⟩

end PropVoice
